import Mathlib

/-!
Verification of the NR sidelink communication resource pool
(`src/src/lte/model/nr-sl-comm-resource-pool.h`, class `NrSlCommResourcePool`).

The repository ships only the class declaration (the header); the member
function bodies live in a `.cc` file that is not part of the source tree.
The data model below (field names, enum values, map shape) is taken from the
header; every operation body is modelled from the specification's §4
(Component Design), as indicated by its doc comment.

Machine-integer remark: the header uses `uint8_t`/`uint16_t`/`uint32_t`/
`uint64_t` fields and arguments.  All quantities the claims involve stay
far below the corresponding width bounds (offsets are bounded by the
`uint16_t` window length `t2`, well under `2^32`), so the embedding uses
`Nat` throughout; no wrap-around is reachable in any statement below.
-/

namespace NrSl

/-- Scheduling types of the sidelink pools held by `NrSlCommResourcePool`
(header lines 84–94): `UNKNOWN`, network `SCHEDULED`, `UE_SELECTED`. -/
inductive SchedulingType where
  | UNKNOWN
  | SCHEDULED
  | UE_SELECTED
deriving DecidableEq

/-- NR sidelink slot info descriptor (header lines 42–82, `struct SlotInfo`):
PSCCH (control) fields, PSSCH (data) fields, subchannel size, maximum number
of reservable resources, absolute slot index and the positive slot offset. -/
structure SlotInfo where
  numSlPscchRbs : Nat
  slPscchSymStart : Nat
  slPscchSymLength : Nat
  slPsschSymStart : Nat
  slPsschSymLength : Nat
  slSubchannelSize : Nat
  slMaxNumPerReserve : Nat
  absSlotIndex : Nat
  slotOffset : Nat

/-- Modelled from the spec: the per-pool configuration record
(`LteRrcSap::SlResourcePoolNr`, whose definition is not in the source tree).
Spec §3: "subchannel size (resource blocks), number of control-channel
resource blocks, control symbol start/length, ... maximum number of
resources one control message may reserve", the total number of symbols of
a slot used by the §4.4 data-length rules, and the configured
sensing-window duration (a time quantity, §4.3) kept here as a duration in
the same time unit as the slot length handed to the sensing-window
calculator. -/
structure SlResourcePoolNr where
  numSlPscchRbs : Nat
  slPscchSymStart : Nat
  slPscchSymLength : Nat
  slSubchannelSize : Nat
  slMaxNumPerReserve : Nat
  slTotalSymbols : Nat
  slSensingWindow : Nat
deriving DecidableEq

/-- A physical sidelink pool: the periodic availability bitmap, one bit per
slot of one repetition period (header line 103 stores it as
`std::vector<std::bitset<1>>`; a bit is `true` when the slot is usable). -/
abbrev PhySlPool := List Bool

/-- Two-level map bwp id → pool id → physical pool (header line 103,
`PhySlPoolMap`), embedded as nested association lists. -/
abbrev PhySlPoolMap := List (Nat × List (Nat × PhySlPool))

/-- Modelled from the spec: the per-carrier configuration container
(`std::array<LteRrcSap::SlFreqConfigCommonNr, MAX_NUM_OF_FREQ_SL>`, whose
element type is not in the source tree).  Spec §4.1 addresses pool
configurations by a (carrier, pool) pair, so the container is embedded as
the same two-level association-list shape as the pool map. -/
abbrev FreqInfoList := List (Nat × List (Nat × SlResourcePoolNr))

/-- The configuration store (header lines 216–218): the per-carrier
configuration list, the physical pool map, and the scheduling type. -/
structure NrSlCommResourcePool where
  m_slPreconfigFreqInfoList : FreqInfoList
  m_phySlPoolMap : PhySlPoolMap
  m_schType : SchedulingType

/-- The error taxonomy of spec §7: `ConfigurationNotFound` (a lookup by
(carrier, pool) has no matching entry) and `InvalidSchedulingMode` (an
attempt to mix scheduled and UE-selected pools). -/
inductive PoolError where
  | ConfigurationNotFound
  | InvalidSchedulingMode

/-- Two-level association-list lookup, shared by the pool map and the
configuration list. -/
def lookup2 {α : Type} (m : List (Nat × List (Nat × α))) (i j : Nat) : Option α :=
  (m.lookup i).bind (fun inner => inner.lookup j)

/-- Modelled from the spec: `GetIteratorToPhySlPool` (declared at header
lines 200–207, body missing).  Spec §4.2: "`getPool(carrier, pool)` returns
the stored bitmap ...  Missing entries fail with ConfigurationNotFound." -/
def GetIteratorToPhySlPool (pool : NrSlCommResourcePool) (bwpId poolId : Nat) :
    Except PoolError PhySlPool :=
  match lookup2 pool.m_phySlPoolMap bwpId poolId with
  | some bitmap => .ok bitmap
  | none => .error .ConfigurationNotFound

/-- Modelled from the spec: `GetSlResourcePoolNr` (declared at header
lines 208–215, body missing).  Spec §4.1: "`getPoolConfig(carrier, pool)`
performs lookups.  All lookups fail with a ConfigurationNotFound condition
if the carrier or pool id has no entry." -/
def GetSlResourcePoolNr (pool : NrSlCommResourcePool) (bwpId poolId : Nat) :
    Except PoolError SlResourcePoolNr :=
  match lookup2 pool.m_slPreconfigFreqInfoList bwpId poolId with
  | some cfg => .ok cfg
  | none => .error .ConfigurationNotFound

/-- Modelled from the spec: `GetNrSlPhyPool` (declared at header
lines 140–147, body missing): return the stored physical sidelink pool for
the (bwp, pool) pair, failing with ConfigurationNotFound when absent
(spec §4.2). -/
def GetNrSlPhyPool (pool : NrSlCommResourcePool) (bwpId poolId : Nat) :
    Except PoolError PhySlPool :=
  GetIteratorToPhySlPool pool bwpId poolId

/-- Modelled from the spec: `GetNrSlSubChSize` (declared at header
lines 188–195, body missing).  Spec §4.1: `getSubchannelSize(carrier, pool)`
looks up the pool configuration and returns its subchannel size in RBs,
failing with ConfigurationNotFound when the pair has no entry. -/
def GetNrSlSubChSize (pool : NrSlCommResourcePool) (bwpId poolId : Nat) :
    Except PoolError Nat := do
  let cfg ← GetSlResourcePoolNr pool bwpId poolId
  pure cfg.slSubchannelSize

/-- Modelled from the spec: `GetNrSlSensWindInSlots` (declared at header
lines 168–175, body missing).  Spec §4.3: look up the pool's configured
sensing-window duration and convert it to an integer slot count using the
provided slot duration, "truncating toward the number of whole slots that
fit; fractional remainder is dropped" — natural-number division. -/
def GetNrSlSensWindInSlots (pool : NrSlCommResourcePool) (bwpId poolId slotLength : Nat) :
    Except PoolError Nat := do
  let cfg ← GetSlResourcePoolNr pool bwpId poolId
  pure (cfg.slSensingWindow / slotLength)

/-- Build one slot opportunity descriptor for absolute slot `a` with offset
`off` (spec §4.4 step 3c–d): PSCCH fields copied verbatim from the pool
configuration; PSSCH symbols start right after the PSCCH symbols end and
the usable PSSCH length is `totalSymbols - pscchLength - 1` (the slot's
last symbol is never usable for data, TS 38.214 8.1.2.1 as quoted at header
lines 151–157). -/
def makeSlotInfo (cfg : SlResourcePoolNr) (a off : Nat) : SlotInfo :=
  { numSlPscchRbs := cfg.numSlPscchRbs
    slPscchSymStart := cfg.slPscchSymStart
    slPscchSymLength := cfg.slPscchSymLength
    slPsschSymStart := cfg.slPscchSymStart + cfg.slPscchSymLength
    slPsschSymLength := cfg.slTotalSymbols - cfg.slPscchSymLength - 1
    slSubchannelSize := cfg.slSubchannelSize
    slMaxNumPerReserve := cfg.slMaxNumPerReserve
    absSlotIndex := a
    slotOffset := off }

/-- Modelled from the spec: `GetNrSlCommOpportunities` (declared at header
lines 149–167, body missing).  Spec §4.4: resolve bitmap and configuration
(propagating ConfigurationNotFound); let `S = 2^numerology`; for every
absolute slot `a` in the half-open window
`[currentSlot + t1, currentSlot + t2)`, keep `a` exactly when
`bitmap[(a / S) mod periodLength]` is set, and record a descriptor with
absolute index `a` and offset `a - currentSlot`. -/
def GetNrSlCommOpportunities (pool : NrSlCommResourcePool)
    (absIndexCurretSlot bwpId numerology poolId t1 t2 : Nat) :
    Except PoolError (List SlotInfo) := do
  let phyPool ← GetIteratorToPhySlPool pool bwpId poolId
  let cfg ← GetSlResourcePoolNr pool bwpId poolId
  let scale := 2 ^ numerology
  let firstSlot := absIndexCurretSlot + t1
  let winLen := (absIndexCurretSlot + t2) - firstSlot
  let candidates := List.range' firstSlot winLen
  let available := candidates.filter
    (fun a => phyPool.getD ((a / scale) % phyPool.length) false)
  pure (available.map (fun a => makeSlotInfo cfg a (a - absIndexCurretSlot)))

/-- `SetNrSlPreConfigFreqInfoList` (declared at header line 133, body
missing): bulk-replace the per-carrier configuration container
(spec §4.1 "replaces the whole fixed-size per-carrier configuration
array"). -/
def SetNrSlPreConfigFreqInfoList (pool : NrSlCommResourcePool) (l : FreqInfoList) :
    NrSlCommResourcePool :=
  { pool with m_slPreconfigFreqInfoList := l }

/-- `SetNrSlPhysicalPoolMap` (declared at header line 139, body missing):
bulk-replace the two-level physical pool map (spec §4.1 "replaces the
two-level pool bitmap map"). -/
def SetNrSlPhysicalPoolMap (pool : NrSlCommResourcePool) (m : PhySlPoolMap) :
    NrSlCommResourcePool :=
  { pool with m_phySlPoolMap := m }

/-- `GetNrSlSchedulingType` (declared at header line 187, body missing):
return the single scheduling type governing every pool of this instance. -/
def GetNrSlSchedulingType (pool : NrSlCommResourcePool) : SchedulingType :=
  pool.m_schType

/-- Modelled from the spec: `SetNrSlSchedulingType` (declared at header
line 181, body missing).  Header lines 84–88: "At one time, either all the
pools will be used for UE_SELECTED scheduling or network SCHEDULED.  There
can not be mix-up."; spec §7: mixing the two modes on one device is the
fatal `InvalidSchedulingMode` configuration error at setup time.  Setting a
mode on a fresh (`UNKNOWN`) store or re-setting the same mode succeeds;
switching between the two concrete modes is rejected. -/
def SetNrSlSchedulingType (pool : NrSlCommResourcePool) (t : SchedulingType) :
    Except PoolError NrSlCommResourcePool :=
  if pool.m_schType = SchedulingType.UNKNOWN ∨ pool.m_schType = t then
    .ok { pool with m_schType := t }
  else
    .error .InvalidSchedulingMode

/-- Modelled from the spec: `operator==` (declared at header
lines 105–111, body missing).  Spec §4.1: "Equality comparison between two
configuration stores is defined as member-wise equality of the
configuration array, the pool map, and the scheduling mode." -/
def poolEqOp (a b : NrSlCommResourcePool) : Bool :=
  decide (a.m_slPreconfigFreqInfoList = b.m_slPreconfigFreqInfoList) &&
  decide (a.m_phySlPoolMap = b.m_phySlPoolMap) &&
  decide (a.m_schType = b.m_schType)

/-- Concrete pool configuration used for witnesses: the spec §8 example pool
(`[1,0,1,1]` bitmap) with an arbitrary but fixed symbol/subchannel layout. -/
def exampleCfg : SlResourcePoolNr :=
  { numSlPscchRbs := 10
    slPscchSymStart := 1
    slPscchSymLength := 2
    slSubchannelSize := 50
    slMaxNumPerReserve := 2
    slTotalSymbols := 14
    slSensingWindow := 1100 }

/-- Concrete resource pool instance holding `exampleCfg` and the spec §8
example bitmap `[1,0,1,1]` under (bwpId, poolId) = (0, 0). -/
def examplePool : NrSlCommResourcePool :=
  { m_slPreconfigFreqInfoList := [(0, [(0, exampleCfg)])]
    m_phySlPoolMap := [(0, [(0, [true, false, true, true])])]
    m_schType := SchedulingType.UE_SELECTED }

/-- The list `GetNrSlCommOpportunities` returns on `examplePool` with
`currentSlot = 10`, numerology 0, `t1 = 1`, `t2 = 5` (spec §8 example). -/
def exampleOpps : List SlotInfo :=
  [makeSlotInfo exampleCfg 11 1, makeSlotInfo exampleCfg 12 2, makeSlotInfo exampleCfg 14 4]

/-- A call-shaped wrapper for the `const` method `GetNrSlCommOpportunities`
(header line 167): a C++ method call on an object yields the returned list
together with the object state after the call; a `const` method leaves that
state equal to the state before the call. -/
def CallGetNrSlCommOpportunities (pool : NrSlCommResourcePool)
    (absIndexCurretSlot bwpId numerology poolId t1 t2 : Nat) :
    Except PoolError (List SlotInfo) × NrSlCommResourcePool :=
  (GetNrSlCommOpportunities pool absIndexCurretSlot bwpId numerology poolId t1 t2, pool)

/-! ## Helper lemmas -/

/-- A successful bitmap lookup determines `GetIteratorToPhySlPool`. -/
theorem phySlPool_lookup_ok (pool : NrSlCommResourcePool) (bwpId poolId : Nat)
    (bm : PhySlPool) (h : lookup2 pool.m_phySlPoolMap bwpId poolId = some bm) :
    GetIteratorToPhySlPool pool bwpId poolId = .ok bm := by
  rw [GetIteratorToPhySlPool, h]

/-- A failed bitmap lookup makes `GetIteratorToPhySlPool` report
`ConfigurationNotFound`. -/
theorem phySlPool_lookup_none (pool : NrSlCommResourcePool) (bwpId poolId : Nat)
    (h : lookup2 pool.m_phySlPoolMap bwpId poolId = none) :
    GetIteratorToPhySlPool pool bwpId poolId = .error .ConfigurationNotFound := by
  rw [GetIteratorToPhySlPool, h]

/-- A successful configuration lookup determines `GetSlResourcePoolNr`. -/
theorem slResourcePool_lookup_ok (pool : NrSlCommResourcePool) (bwpId poolId : Nat)
    (cfg : SlResourcePoolNr)
    (h : lookup2 pool.m_slPreconfigFreqInfoList bwpId poolId = some cfg) :
    GetSlResourcePoolNr pool bwpId poolId = .ok cfg := by
  rw [GetSlResourcePoolNr, h]

/-- A failed configuration lookup makes `GetSlResourcePoolNr` report
`ConfigurationNotFound`. -/
theorem slResourcePool_lookup_none (pool : NrSlCommResourcePool) (bwpId poolId : Nat)
    (h : lookup2 pool.m_slPreconfigFreqInfoList bwpId poolId = none) :
    GetSlResourcePoolNr pool bwpId poolId = .error .ConfigurationNotFound := by
  rw [GetSlResourcePoolNr, h]

/-- Closed form of the enumerator once both lookups succeed: the window
`range'` filtered by the bitmap test and mapped to descriptors. -/
theorem getOpps_eq (pool : NrSlCommResourcePool)
    (cur bwpId mu poolId t1 t2 : Nat) (bm : PhySlPool) (cfg : SlResourcePoolNr)
    (hbm : GetIteratorToPhySlPool pool bwpId poolId = .ok bm)
    (hcfg : GetSlResourcePoolNr pool bwpId poolId = .ok cfg) :
    GetNrSlCommOpportunities pool cur bwpId mu poolId t1 t2 =
      .ok (((List.range' (cur + t1) (t2 - t1)).filter
          (fun a => bm.getD ((a / 2 ^ mu) % bm.length) false)).map
        (fun a => makeSlotInfo cfg a (a - cur))) := by
  rw [GetNrSlCommOpportunities, hbm, hcfg]
  show Except.ok (((List.range' (cur + t1) ((cur + t2) - (cur + t1))).filter
      (fun a => bm.getD ((a / 2 ^ mu) % bm.length) false)).map
    (fun a => makeSlotInfo cfg a (a - cur))) = _
  rw [Nat.add_sub_add_left]

/-- Any successful enumerator call factors through `getOpps_eq`. -/
theorem getOpps_ok_elim (pool : NrSlCommResourcePool)
    (cur bwpId mu poolId t1 t2 : Nat) (l : List SlotInfo)
    (hl : GetNrSlCommOpportunities pool cur bwpId mu poolId t1 t2 = .ok l) :
    ∃ bm cfg, GetIteratorToPhySlPool pool bwpId poolId = .ok bm ∧
      GetSlResourcePoolNr pool bwpId poolId = .ok cfg ∧
      l = ((List.range' (cur + t1) (t2 - t1)).filter
          (fun a => bm.getD ((a / 2 ^ mu) % bm.length) false)).map
        (fun a => makeSlotInfo cfg a (a - cur)) := by
  cases h1 : GetIteratorToPhySlPool pool bwpId poolId with
  | error e =>
    rw [GetNrSlCommOpportunities, h1] at hl
    exact absurd hl (fun h => Except.noConfusion h)
  | ok bm =>
    cases h2 : GetSlResourcePoolNr pool bwpId poolId with
    | error e =>
      rw [GetNrSlCommOpportunities, h1, h2] at hl
      exact absurd hl (fun h => Except.noConfusion h)
    | ok cfg =>
      refine ⟨bm, cfg, rfl, rfl, ?_⟩
      rw [getOpps_eq pool cur bwpId mu poolId t1 t2 bm cfg h1 h2] at hl
      exact (Except.ok.inj hl).symm

/-- Membership in the enumeration window, in terms of the half-open bounds
`[cur + t1, cur + t2)`. -/
theorem mem_window {cur t1 t2 a : Nat} :
    a ∈ List.range' (cur + t1) (t2 - t1) ↔ cur + t1 ≤ a ∧ a < cur + t2 := by
  rw [List.mem_range'_1]
  rcases Nat.le_total t1 t2 with ht | ht
  · rw [Nat.add_assoc, Nat.add_sub_cancel' ht]
  · rw [Nat.sub_eq_zero_of_le ht]
    constructor
    · rintro ⟨h1, h2⟩
      rw [Nat.add_zero] at h2
      exact absurd h2 (Nat.not_lt.mpr h1)
    · rintro ⟨h1, h2⟩
      have hle : cur + t2 ≤ a := Nat.le_trans (Nat.add_le_add_left ht cur) h1
      exact absurd h2 (Nat.not_lt.mpr hle)

/-! ## Claim theorems -/

/-- C1: every descriptor returned by `GetNrSlCommOpportunities` (with a
populated bitmap for the pair) has its absolute slot index inside
`[currentSlot + t1, currentSlot + t2)`, the list is strictly ascending by
absolute slot index (hence duplicate-free), and each descriptor\'s
`slotOffset` equals its absolute slot index minus the current slot. -/
theorem getOpportunities_window_sorted_offsets (pool : NrSlCommResourcePool)
    (cur bwpId mu poolId t1 t2 : Nat) (bm : PhySlPool) (l : List SlotInfo)
    (hbm : GetIteratorToPhySlPool pool bwpId poolId = .ok bm)
    (hpop : bm ≠ [])
    (hl : GetNrSlCommOpportunities pool cur bwpId mu poolId t1 t2 = .ok l) :
    (∀ s ∈ l, cur + t1 ≤ s.absSlotIndex ∧ s.absSlotIndex < cur + t2) ∧
    l.Pairwise (fun x y => x.absSlotIndex < y.absSlotIndex) ∧
    (∀ s ∈ l, s.slotOffset = s.absSlotIndex - cur) := by
  obtain ⟨bm2, cfg, hbm2, hcfg, hleq⟩ :=
    getOpps_ok_elim pool cur bwpId mu poolId t1 t2 l hl
  subst hleq
  refine ⟨?_, ?_, ?_⟩
  · intro s hs
    obtain ⟨a, ha, rfl⟩ := List.mem_map.mp hs
    exact mem_window.mp (List.mem_filter.mp ha).1
  · rw [List.pairwise_map]
    exact (List.pairwise_lt_range' (cur + t1) (t2 - t1)).filter _
  · intro s hs
    obtain ⟨a, _, rfl⟩ := List.mem_map.mp hs
    rfl

/-- Witness for C1 at the spec §8 example pool. -/
theorem getOpportunities_window_sorted_offsets_witness :
    (∀ s ∈ exampleOpps, 10 + 1 ≤ s.absSlotIndex ∧ s.absSlotIndex < 10 + 5) ∧
    exampleOpps.Pairwise (fun x y => x.absSlotIndex < y.absSlotIndex) ∧
    (∀ s ∈ exampleOpps, s.slotOffset = s.absSlotIndex - 10) :=
  getOpportunities_window_sorted_offsets examplePool 10 0 0 0 1 5
    [true, false, true, true] exampleOpps rfl (List.cons_ne_nil _ _) rfl

/-- C2: every returned descriptor copies the PSCCH fields, the subchannel
size and the maximum reservable resources verbatim from the pool
configuration, starts PSSCH right after PSCCH ends, and has usable PSSCH
length `totalSymbols - pscchLength - 1` (the slot\'s last symbol is never
usable for data). -/
theorem getOpportunities_layout (pool : NrSlCommResourcePool)
    (cur bwpId mu poolId t1 t2 : Nat) (cfg : SlResourcePoolNr) (l : List SlotInfo)
    (hcfg : GetSlResourcePoolNr pool bwpId poolId = .ok cfg)
    (hl : GetNrSlCommOpportunities pool cur bwpId mu poolId t1 t2 = .ok l) :
    ∀ s ∈ l, s.numSlPscchRbs = cfg.numSlPscchRbs ∧
      s.slPscchSymStart = cfg.slPscchSymStart ∧
      s.slPscchSymLength = cfg.slPscchSymLength ∧
      s.slSubchannelSize = cfg.slSubchannelSize ∧
      s.slMaxNumPerReserve = cfg.slMaxNumPerReserve ∧
      s.slPsschSymStart = cfg.slPscchSymStart + cfg.slPscchSymLength ∧
      s.slPsschSymLength = cfg.slTotalSymbols - cfg.slPscchSymLength - 1 := by
  obtain ⟨bm2, cfg2, hbm2, hcfg2, hleq⟩ :=
    getOpps_ok_elim pool cur bwpId mu poolId t1 t2 l hl
  rw [hcfg] at hcfg2
  obtain rfl := Except.ok.inj hcfg2
  subst hleq
  intro s hs
  obtain ⟨a, _, rfl⟩ := List.mem_map.mp hs
  exact ⟨rfl, rfl, rfl, rfl, rfl, rfl, rfl⟩

/-- Witness for C2 at the spec §8 example pool, on the returned descriptor
for absolute slot 11. -/
theorem getOpportunities_layout_witness :
    (makeSlotInfo exampleCfg 11 1).numSlPscchRbs = exampleCfg.numSlPscchRbs ∧
    (makeSlotInfo exampleCfg 11 1).slPscchSymStart = exampleCfg.slPscchSymStart ∧
    (makeSlotInfo exampleCfg 11 1).slPscchSymLength = exampleCfg.slPscchSymLength ∧
    (makeSlotInfo exampleCfg 11 1).slSubchannelSize = exampleCfg.slSubchannelSize ∧
    (makeSlotInfo exampleCfg 11 1).slMaxNumPerReserve = exampleCfg.slMaxNumPerReserve ∧
    (makeSlotInfo exampleCfg 11 1).slPsschSymStart =
      exampleCfg.slPscchSymStart + exampleCfg.slPscchSymLength ∧
    (makeSlotInfo exampleCfg 11 1).slPsschSymLength =
      exampleCfg.slTotalSymbols - exampleCfg.slPscchSymLength - 1 :=
  getOpportunities_layout examplePool 10 0 0 0 1 5 exampleCfg exampleOpps rfl rfl
    (makeSlotInfo exampleCfg 11 1) (List.mem_cons_self _ _)

/-- C3: a candidate absolute slot `a` of the window appears in the result
exactly when `bitmap[(a / 2^numerology) mod periodLength]` is set; and on
bitmap `[1,0,1,1]`, numerology 0, `currentSlot = 10`, `t1 = 1`, `t2 = 5`
the returned absolute slots are exactly `11, 12, 14` in that order. -/
theorem getOpportunities_bitmap_membership (pool : NrSlCommResourcePool)
    (cur bwpId mu poolId t1 t2 a : Nat) (bm : PhySlPool) (l : List SlotInfo)
    (hbm : GetIteratorToPhySlPool pool bwpId poolId = .ok bm)
    (hl : GetNrSlCommOpportunities pool cur bwpId mu poolId t1 t2 = .ok l) :
    ((∃ s ∈ l, s.absSlotIndex = a) ↔
      cur + t1 ≤ a ∧ a < cur + t2 ∧ bm.getD ((a / 2 ^ mu) % bm.length) false = true) ∧
    GetNrSlCommOpportunities examplePool 10 0 0 0 1 5 = .ok exampleOpps ∧
    exampleOpps.map SlotInfo.absSlotIndex = [11, 12, 14] := by
  obtain ⟨bm2, cfg, hbm2, hcfg, hleq⟩ :=
    getOpps_ok_elim pool cur bwpId mu poolId t1 t2 l hl
  rw [hbm] at hbm2
  obtain rfl := Except.ok.inj hbm2
  subst hleq
  refine ⟨?_, rfl, rfl⟩
  simp only [List.mem_map, List.mem_filter]
  constructor
  · rintro ⟨s, ⟨a2, ⟨hrange, hbit⟩, rfl⟩, hidx⟩
    have ha2 : a2 = a := hidx
    subst ha2
    have hw := mem_window.mp hrange
    exact ⟨hw.1, hw.2, hbit⟩
  · rintro ⟨h1, h2, h3⟩
    exact ⟨makeSlotInfo cfg a (a - cur),
      ⟨a, ⟨mem_window.mpr ⟨h1, h2⟩, h3⟩, rfl⟩, rfl⟩

/-- Witness for C3: absolute slot 11 is returned on the example pool, and
the bitmap test at position `11 mod 4 = 3` is indeed set. -/
theorem getOpportunities_bitmap_membership_witness :
    ((∃ s ∈ exampleOpps, s.absSlotIndex = 11) ↔
      10 + 1 ≤ 11 ∧ 11 < 10 + 5 ∧
        ([true, false, true, true] : PhySlPool).getD
          ((11 / 2 ^ 0) % ([true, false, true, true] : PhySlPool).length) false = true) ∧
    GetNrSlCommOpportunities examplePool 10 0 0 0 1 5 = .ok exampleOpps ∧
    exampleOpps.map SlotInfo.absSlotIndex = [11, 12, 14] :=
  getOpportunities_bitmap_membership examplePool 10 0 0 0 1 5 11
    [true, false, true, true] exampleOpps rfl rfl

/-- C4: with a configured (bwpId, poolId) pair, a window with `t2 = 0` or
`t2 ≤ t1`, or one in which no candidate slot passes the bitmap test, makes
`GetNrSlCommOpportunities` return the empty list successfully — a normal
outcome, not an error. -/
theorem getOpportunities_empty_ok (pool : NrSlCommResourcePool)
    (cur bwpId mu poolId t1 t2 : Nat) (bm : PhySlPool) (cfg : SlResourcePoolNr)
    (hbm : GetIteratorToPhySlPool pool bwpId poolId = .ok bm)
    (hcfg : GetSlResourcePoolNr pool bwpId poolId = .ok cfg) :
    ((t2 = 0 ∨ t2 ≤ t1) →
      GetNrSlCommOpportunities pool cur bwpId mu poolId t1 t2 = .ok []) ∧
    ((∀ a, cur + t1 ≤ a → a < cur + t2 →
        bm.getD ((a / 2 ^ mu) % bm.length) false = false) →
      GetNrSlCommOpportunities pool cur bwpId mu poolId t1 t2 = .ok []) := by
  rw [getOpps_eq pool cur bwpId mu poolId t1 t2 bm cfg hbm hcfg]
  constructor
  · intro h
    have hz : t2 - t1 = 0 := by
      rcases h with h | h
      · rw [h]
        exact Nat.zero_sub t1
      · exact Nat.sub_eq_zero_of_le h
    rw [hz]
    rfl
  · intro h
    have hfil : (List.range' (cur + t1) (t2 - t1)).filter
        (fun a => bm.getD ((a / 2 ^ mu) % bm.length) false) = [] := by
      rw [List.filter_eq_nil_iff]
      intro a ha
      have hw := mem_window.mp ha
      have hv := h a hw.1 hw.2
      exact fun hcontra => Bool.noConfusion (hv.symm.trans hcontra)
    rw [hfil]
    rfl

/-- Witness for C4: on the example pool, `t2 = 0` yields `ok []`. -/
theorem getOpportunities_empty_ok_witness :
    GetNrSlCommOpportunities examplePool 10 0 0 0 1 0 = .ok [] :=
  (getOpportunities_empty_ok examplePool 10 0 0 0 1 0
    [true, false, true, true] exampleCfg rfl rfl).1 (Or.inl rfl)

/-- C10: every returned descriptor\'s `slotOffset` is the (never negative,
`Nat`-valued) difference between its absolute slot index and the current
slot, and is at least `t1`. -/
theorem getOpportunities_offset_at_least_t1 (pool : NrSlCommResourcePool)
    (cur bwpId mu poolId t1 t2 : Nat) (l : List SlotInfo)
    (hl : GetNrSlCommOpportunities pool cur bwpId mu poolId t1 t2 = .ok l) :
    ∀ s ∈ l, s.slotOffset = s.absSlotIndex - cur ∧ t1 ≤ s.slotOffset := by
  obtain ⟨bm, cfg, hbm, hcfg, hleq⟩ :=
    getOpps_ok_elim pool cur bwpId mu poolId t1 t2 l hl
  subst hleq
  intro s hs
  obtain ⟨a, ha, rfl⟩ := List.mem_map.mp hs
  have hw := mem_window.mp (List.mem_filter.mp ha).1
  refine ⟨rfl, ?_⟩
  show t1 ≤ a - cur
  exact Nat.le_sub_of_add_le (by rw [Nat.add_comm]; exact hw.1)

/-- Witness for C10 at the spec §8 example pool, on the returned descriptor
for absolute slot 11. -/
theorem getOpportunities_offset_at_least_t1_witness :
    (makeSlotInfo exampleCfg 11 1).slotOffset =
      (makeSlotInfo exampleCfg 11 1).absSlotIndex - 10 ∧
    1 ≤ (makeSlotInfo exampleCfg 11 1).slotOffset :=
  getOpportunities_offset_at_least_t1 examplePool 10 0 0 0 1 5 exampleOpps rfl
    (makeSlotInfo exampleCfg 11 1) (List.mem_cons_self _ _)

/-- C5: for a (bwpId, poolId) pair with no stored entry, each query
operation — subchannel size, opportunities, sensing window, physical
pool — fails with `ConfigurationNotFound` and returns no partial result. -/
theorem unconfigured_pair_not_found (pool : NrSlCommResourcePool) (bwpId poolId : Nat)
    (hphy : lookup2 pool.m_phySlPoolMap bwpId poolId = none)
    (hcfg : lookup2 pool.m_slPreconfigFreqInfoList bwpId poolId = none) :
    GetNrSlSubChSize pool bwpId poolId = .error .ConfigurationNotFound ∧
    (∀ cur mu t1 t2, GetNrSlCommOpportunities pool cur bwpId mu poolId t1 t2 =
      .error .ConfigurationNotFound) ∧
    (∀ slotLength, GetNrSlSensWindInSlots pool bwpId poolId slotLength =
      .error .ConfigurationNotFound) ∧
    GetNrSlPhyPool pool bwpId poolId = .error .ConfigurationNotFound := by
  have h1 := phySlPool_lookup_none pool bwpId poolId hphy
  have h2 := slResourcePool_lookup_none pool bwpId poolId hcfg
  refine ⟨?_, ?_, ?_, ?_⟩
  · rw [GetNrSlSubChSize, h2]
    rfl
  · intro cur mu t1 t2
    rw [GetNrSlCommOpportunities, h1]
    rfl
  · intro slotLength
    rw [GetNrSlSensWindInSlots, h2]
    rfl
  · exact h1

/-- Witness for C5: the example pool has no entry under bwpId 1. -/
theorem unconfigured_pair_not_found_witness :
    GetNrSlSubChSize examplePool 1 0 = .error .ConfigurationNotFound ∧
    (∀ cur mu t1 t2, GetNrSlCommOpportunities examplePool cur 1 mu 0 t1 t2 =
      .error .ConfigurationNotFound) ∧
    (∀ slotLength, GetNrSlSensWindInSlots examplePool 1 0 slotLength =
      .error .ConfigurationNotFound) ∧
    GetNrSlPhyPool examplePool 1 0 = .error .ConfigurationNotFound :=
  unconfigured_pair_not_found examplePool 1 0 rfl rfl

/-- C6: one scheduling mode governs every pool of an instance (a single
`m_schType` field, read by `GetNrSlSchedulingType`); switching an already
set mode to a different one is rejected with the fatal
`InvalidSchedulingMode` error, while setting a fresh (`UNKNOWN`) store or
re-setting the same mode succeeds and touches nothing but the mode. -/
theorem schedulingType_mixing_rejected (pool : NrSlCommResourcePool)
    (t : SchedulingType) :
    (pool.m_schType ≠ SchedulingType.UNKNOWN → pool.m_schType ≠ t →
      SetNrSlSchedulingType pool t = .error .InvalidSchedulingMode) ∧
    (∀ p, SetNrSlSchedulingType pool t = .ok p →
      (pool.m_schType = SchedulingType.UNKNOWN ∨ pool.m_schType = t) ∧
      GetNrSlSchedulingType p = t ∧
      p.m_slPreconfigFreqInfoList = pool.m_slPreconfigFreqInfoList ∧
      p.m_phySlPoolMap = pool.m_phySlPoolMap) := by
  constructor
  · intro hset hne
    have hno : ¬(pool.m_schType = SchedulingType.UNKNOWN ∨ pool.m_schType = t) := by
      rintro (h | h) <;> contradiction
    rw [SetNrSlSchedulingType, if_neg hno]
  · intro p hp
    by_cases hc : pool.m_schType = SchedulingType.UNKNOWN ∨ pool.m_schType = t
    · rw [SetNrSlSchedulingType, if_pos hc] at hp
      obtain rfl := Except.ok.inj hp
      exact ⟨hc, rfl, rfl, rfl⟩
    · rw [SetNrSlSchedulingType, if_neg hc] at hp
      exact absurd hp (fun h => Except.noConfusion h)

/-- Witness for C6: the example pool is `UE_SELECTED`; trying to switch it
to network `SCHEDULED` fails with `InvalidSchedulingMode`. -/
theorem schedulingType_mixing_rejected_witness :
    SetNrSlSchedulingType examplePool SchedulingType.SCHEDULED =
      .error .InvalidSchedulingMode :=
  (schedulingType_mixing_rejected examplePool SchedulingType.SCHEDULED).1
    (fun h => SchedulingType.noConfusion h) (fun h => SchedulingType.noConfusion h)

/-- C7: for a configured pair, `GetNrSlSensWindInSlots` returns the
configured sensing-window duration divided by the supplied slot length with
truncating integer division: the number of whole slots that fit, the
fractional remainder dropped. -/
theorem sensingWindow_truncating_division (pool : NrSlCommResourcePool)
    (bwpId poolId slotLength : Nat) (cfg : SlResourcePoolNr) (r : Nat)
    (hcfg : GetSlResourcePoolNr pool bwpId poolId = .ok cfg)
    (hr : GetNrSlSensWindInSlots pool bwpId poolId slotLength = .ok r)
    (hpos : 0 < slotLength) :
    r = cfg.slSensingWindow / slotLength ∧
    r * slotLength ≤ cfg.slSensingWindow ∧
    cfg.slSensingWindow < (r + 1) * slotLength := by
  rw [GetNrSlSensWindInSlots, hcfg] at hr
  obtain rfl := (Except.ok.inj hr).symm
  refine ⟨rfl, Nat.div_mul_le_self _ _, ?_⟩
  exact (Nat.div_lt_iff_lt_mul hpos).mp (Nat.lt_succ_self _)

/-- Witness for C7: the example sensing window of 1100 time units with slot
length 250 gives 4 whole slots (the remainder 100 is dropped). -/
theorem sensingWindow_truncating_division_witness :
    (4 : Nat) = exampleCfg.slSensingWindow / 250 ∧
    4 * 250 ≤ exampleCfg.slSensingWindow ∧
    exampleCfg.slSensingWindow < (4 + 1) * 250 :=
  sensingWindow_truncating_division examplePool 0 0 250 exampleCfg 4 rfl rfl
    (Nat.succ_pos 249)

/-- C8: bulk-setting the configuration list and the physical pool map and
immediately reading back through `GetNrSlPhyPool` / `GetSlResourcePoolNr` /
`GetNrSlSubChSize` yields exactly the stored values, and `operator==` is
member-wise equality of the configuration list, the pool map and the
scheduling mode — i.e. it holds exactly for equal stores. -/
theorem setThenGet_roundTrip (pool : NrSlCommResourcePool)
    (freqList : FreqInfoList) (m : PhySlPoolMap) (bwpId poolId : Nat)
    (bm : PhySlPool) (cfg : SlResourcePoolNr)
    (hm : lookup2 m bwpId poolId = some bm)
    (hf : lookup2 freqList bwpId poolId = some cfg) :
    GetNrSlPhyPool (SetNrSlPhysicalPoolMap (SetNrSlPreConfigFreqInfoList pool freqList) m)
      bwpId poolId = .ok bm ∧
    GetSlResourcePoolNr
      (SetNrSlPhysicalPoolMap (SetNrSlPreConfigFreqInfoList pool freqList) m)
      bwpId poolId = .ok cfg ∧
    GetNrSlSubChSize (SetNrSlPhysicalPoolMap (SetNrSlPreConfigFreqInfoList pool freqList) m)
      bwpId poolId = .ok cfg.slSubchannelSize ∧
    (∀ x y : NrSlCommResourcePool, poolEqOp x y = true ↔ x = y) := by
  have hcfg : GetSlResourcePoolNr
      (SetNrSlPhysicalPoolMap (SetNrSlPreConfigFreqInfoList pool freqList) m)
      bwpId poolId = .ok cfg :=
    slResourcePool_lookup_ok _ bwpId poolId cfg hf
  refine ⟨phySlPool_lookup_ok _ bwpId poolId bm hm, hcfg, ?_, ?_⟩
  · rw [GetNrSlSubChSize, hcfg]
    rfl
  · intro x y
    cases x
    cases y
    simp [poolEqOp, NrSlCommResourcePool.mk.injEq, and_assoc]

/-- Witness for C8: installing the example configuration and bitmap and
reading (0,0) back returns exactly the installed values. -/
theorem setThenGet_roundTrip_witness :
    GetNrSlPhyPool (SetNrSlPhysicalPoolMap (SetNrSlPreConfigFreqInfoList
        examplePool [(0, [(0, exampleCfg)])]) [(0, [(0, [true, false, true, true])])])
      0 0 = .ok [true, false, true, true] ∧
    GetSlResourcePoolNr (SetNrSlPhysicalPoolMap (SetNrSlPreConfigFreqInfoList
        examplePool [(0, [(0, exampleCfg)])]) [(0, [(0, [true, false, true, true])])])
      0 0 = .ok exampleCfg ∧
    GetNrSlSubChSize (SetNrSlPhysicalPoolMap (SetNrSlPreConfigFreqInfoList
        examplePool [(0, [(0, exampleCfg)])]) [(0, [(0, [true, false, true, true])])])
      0 0 = .ok exampleCfg.slSubchannelSize ∧
    (∀ x y : NrSlCommResourcePool, poolEqOp x y = true ↔ x = y) :=
  setThenGet_roundTrip examplePool [(0, [(0, exampleCfg)])]
    [(0, [(0, [true, false, true, true])])] 0 0 [true, false, true, true]
    exampleCfg rfl rfl

/-- C9: `GetNrSlCommOpportunities` is a pure, `const` query: the call
leaves the configuration list, the pool map and the scheduling mode of the
store unchanged, and a second call with identical arguments on the state
left by the first call returns the identical result. -/
theorem getOpportunities_pure_frame (pool : NrSlCommResourcePool)
    (cur bwpId mu poolId t1 t2 : Nat) :
    (CallGetNrSlCommOpportunities pool cur bwpId mu poolId t1 t2).2.m_slPreconfigFreqInfoList
        = pool.m_slPreconfigFreqInfoList ∧
    (CallGetNrSlCommOpportunities pool cur bwpId mu poolId t1 t2).2.m_phySlPoolMap
        = pool.m_phySlPoolMap ∧
    (CallGetNrSlCommOpportunities pool cur bwpId mu poolId t1 t2).2.m_schType
        = pool.m_schType ∧
    (CallGetNrSlCommOpportunities
        (CallGetNrSlCommOpportunities pool cur bwpId mu poolId t1 t2).2
        cur bwpId mu poolId t1 t2).1 =
      (CallGetNrSlCommOpportunities pool cur bwpId mu poolId t1 t2).1 :=
  ⟨rfl, rfl, rfl, rfl⟩

end NrSl
